import Mathlib

/-!
# Time_LCD_L152RB: the OPAMP follower demo and the RTC wrapper

A shallow embedding of

* `Projects/NUCLEO-L152RE/Examples/OPAMP/OPAMP_InternalFollower/Src/main.c`
  (namespace `OPAMP_InternalFollower`), and
* `Application/Src/rtc.c` (namespace `RTC`).

Conventions.

* C unsigned integers are `Nat`; where the width matters the reduction
  `% 2 ^ w` is written out.
* `aADCxConvertedValues` is addressed the way the C code addresses it: by a
  signed halfword offset from the start of the array.  The RAM around the
  array is the function `Int → Nat` handed to the callback; offsets `0..31`
  are the 32 samples of the buffer, every other offset is a neighbouring
  object.  Each function that reads the array also returns the list of the
  offsets it read, so that bounds can be stated about the code itself.
* Calls into the vendor HAL / BSP are recorded as events; the status a HAL
  call returns is supplied by an oracle.
-/

/-! ## HAL statuses and runs of straight-line HAL code -/

/-- Modelled from the spec: the vendor type `HAL_StatusTypeDef`
(`HAL_OK`, `HAL_ERROR`, `HAL_BUSY`, `HAL_TIMEOUT`), declared in the HAL
headers, which are not among the sources.  The sources only ever compare a
status with `HAL_OK`. -/
inductive HalStatus where
  | HAL_OK
  | HAL_ERROR
  | HAL_BUSY
  | HAL_TIMEOUT
deriving DecidableEq, Repr

/-- A run of initialisation code: the events performed so far, in program
order, and whether control has entered the error handler.  The error handler
never returns, so once `inErrorHandler` is set no statement of the caller is
executed any more. -/
structure Run (ε : Type) where
  trace : List ε
  inErrorHandler : Bool
deriving DecidableEq, Repr

/-- The run at function entry. -/
def Run.start {ε : Type} : Run ε := { trace := [], inErrorHandler := false }

/-- A statement `f(...);`: the call is made and its result, if any, is
discarded. -/
def Run.emit {ε : Type} (e : ε) (r : Run ε) : Run ε :=
  if r.inErrorHandler then r else { r with trace := r.trace ++ [e] }

/-- A statement `if (f(...) != HAL_OK) { Error_Handler(); }` where the call
`e` returns `status`. -/
def Run.checked {ε : Type} (status : HalStatus) (e : ε) (r : Run ε) : Run ε :=
  if r.inErrorHandler then r
  else { trace := r.trace ++ [e], inErrorHandler := decide (status ≠ HalStatus.HAL_OK) }

/-- The statement `e` executed `n` times in a row. -/
def Run.emitTimes {ε : Type} (e : ε) : Nat → Run ε → Run ε
  | 0, r => r
  | n + 1, r => Run.emitTimes e n (r.emit e)

namespace OPAMP_InternalFollower

/-! ## Constants of `main.c` -/

/-- Line 34: `#define RANGE_12BITS ((uint32_t)4095)`. -/
def RANGE_12BITS : Nat := 4095

/-- Line 35: `#define TIMER_FREQUENCY_HZ ((uint32_t)1000)`. -/
def TIMER_FREQUENCY_HZ : Nat := 1000

/-- Line 36: `#define WAVEFORM_RAMP_12BITS_5SAMPLES ((uint32_t) 5)`. -/
def WAVEFORM_RAMP_12BITS_5SAMPLES : Nat := 5

/-- Line 37: `#define ADCCONVERTEDVALUES_BUFFER_SIZE ((uint32_t) 32)`. -/
def ADCCONVERTEDVALUES_BUFFER_SIZE : Nat := 32

/-- Line 38: `#define ADC_MEASUREMENT_TOLERANCE_LSB ((uint32_t) 140)`. -/
def ADC_MEASUREMENT_TOLERANCE_LSB : Nat := 140

/-- Line 49: `const uint16_t Waveform_Ramp_12bits_5samples[5] = {0, 1023, 2047, 3071, 4095}`. -/
def Waveform_Ramp_12bits_5samples : List Nat := [0, 1023, 2047, 3071, 4095]

/-- The expression `Waveform_Ramp_12bits_5samples[k]`. -/
def ramp (k : Nat) : Nat := Waveform_Ramp_12bits_5samples.getD k 0

/-- Modelled from the spec: the flag value `RESET` of the vendor device header
(`typedef enum {RESET = 0, SET = !RESET} FlagStatus`), which is not among the
sources. -/
def RESET : Nat := 0

/-- Modelled from the spec: the flag value `SET` of the vendor device header
(`SET = !RESET`), which is not among the sources. -/
def SET : Nat := 1

/-- The two global flags of `main.c` (both `uint8_t`). -/
structure Globals where
  ubUserButtonClickEventToggle : Nat
  ubOPAMPOutputInputVoltageStatus : Nat
deriving DecidableEq, Repr

/-! ## `HAL_ADC_ConvCpltCallback` -/

/-- The expression `aADCxConvertedValues[i]`: a `uint16_t` load at signed
halfword offset `i` from the start of the array. -/
def load16 (mem : Int → Nat) (i : Int) : Nat := mem i % 2 ^ 16

/-- Outcome of the start-search loop: the final `tmp_index_waveform_start`
and the offsets of `aADCxConvertedValues` that were read, in program order. -/
structure Search where
  start : Nat
  reads : List Int
deriving DecidableEq, Repr

/-- Prefix the reads of one iteration to the outcome of the remaining ones. -/
def Search.after (pre : List Int) (s : Search) : Search :=
  { start := s.start, reads := pre ++ s.reads }

/-- The loop `for (tmp_index = 0; tmp_index < ADCCONVERTEDVALUES_BUFFER_SIZE; tmp_index++)`
of lines 439-449, entered with `left` iterations to go at counter value
`tmp_index`.  `tmp_index - 1` is computed in `int` (the `uint16_t` counter is
promoted), so it is `-1` in the first iteration.  `&&` evaluates its right
operand only when the left one holds.  When the loop runs out,
`tmp_index_waveform_start` still holds its initial value `0`. -/
def searchLoop (mem : Int → Nat) : (left : Nat) → (tmp_index : Nat) → Search
  | 0, _ => { start := 0, reads := [] }
  | left + 1, tmp_index =>
    if load16 mem ((tmp_index : Int) - 1) > ramp (WAVEFORM_RAMP_12BITS_5SAMPLES - 2) then
      if load16 mem (tmp_index : Int) < ramp 1 then
        { start := tmp_index, reads := [(tmp_index : Int) - 1, (tmp_index : Int)] }
      else
        (searchLoop mem left ((tmp_index + 1) % 2 ^ 16)).after
          [(tmp_index : Int) - 1, (tmp_index : Int)]
    else
      (searchLoop mem left ((tmp_index + 1) % 2 ^ 16)).after [(tmp_index : Int) - 1]

/-- Lines 430-449: the search for the waveform start over the whole buffer. -/
def search (mem : Int → Nat) : Search :=
  searchLoop mem ADCCONVERTEDVALUES_BUFFER_SIZE 0

/-- Lines 461-464: `tmp_waveform[tmp_index] = aADCxConvertedValues[tmp_index + start]`
for `tmp_index = 0..4`. -/
def extract (mem : Int → Nat) (start : Nat) : List Nat :=
  (List.range WAVEFORM_RAMP_12BITS_5SAMPLES).map
    (fun (tmp_index : Nat) => load16 mem ((tmp_index : Int) + (start : Int)))

/-- The accesses of the extraction loop, one pair per iteration: the offset
read from `aADCxConvertedValues` and the index written in `tmp_waveform`. -/
def extractAccesses (start : Nat) : List (Int × Nat) :=
  (List.range WAVEFORM_RAMP_12BITS_5SAMPLES).map
    (fun (tmp_index : Nat) => ((tmp_index : Int) + (start : Int), tmp_index))

/-- Lines 475-492, one iteration of the comparison loop on sample `t` and
reference `r`, in 32-bit unsigned arithmetic (`ADC_MEASUREMENT_TOLERANCE_LSB`
is a `uint32_t`, so both operands are converted to it). -/
def compareStep (status : Nat) (t r : Nat) : Nat :=
  if (t + ADC_MEASUREMENT_TOLERANCE_LSB) % 2 ^ 32 > r then
    if t ≥ ADC_MEASUREMENT_TOLERANCE_LSB then
      if ¬ ((t + 2 ^ 32 - ADC_MEASUREMENT_TOLERANCE_LSB) % 2 ^ 32 < r) then
        RESET
      else status
    else status
  else RESET

/-- Lines 468-493: the status is set, then the five samples are compared in turn. -/
def compare (tmp_waveform : List Nat) : Nat :=
  (List.range WAVEFORM_RAMP_12BITS_5SAMPLES).foldl
    (fun status tmp_index => compareStep status (tmp_waveform.getD tmp_index 0) (ramp tmp_index))
    SET

/-- What a run of the callback leaves behind: the globals, the offsets of
`aADCxConvertedValues` it read and the indices of `tmp_waveform` it wrote. -/
structure CallbackRun where
  globals : Globals
  reads : List Int
  tmpWrites : List Nat
deriving DecidableEq, Repr

/-- Lines 428-496. -/
def HAL_ADC_ConvCpltCallback (mem : Int → Nat) (g : Globals) : CallbackRun :=
  let s := search mem
  if s.start = 0 then
    { globals := { g with ubOPAMPOutputInputVoltageStatus := RESET },
      reads := s.reads, tmpWrites := [] }
  else
    { globals := { g with ubOPAMPOutputInputVoltageStatus := compare (extract mem s.start) },
      reads := s.reads ++ (extractAccesses s.start).map Prod.fst,
      tmpWrites := (extractAccesses s.start).map Prod.snd }

/-! ## `HAL_GPIO_EXTI_Callback` -/

/-- Lines 404-419.  `USER_BUTTON_PIN` is a board-support constant whose
definition is not among the sources; it is a parameter. -/
def HAL_GPIO_EXTI_Callback (USER_BUTTON_PIN : Nat) (GPIO_Pin : Nat) (g : Globals) : Globals :=
  if GPIO_Pin = USER_BUTTON_PIN then
    if g.ubUserButtonClickEventToggle = RESET then
      { g with ubUserButtonClickEventToggle := SET }
    else
      { g with ubUserButtonClickEventToggle := RESET }
  else g

/-! ## Control flow of `main`, the `*_Config` functions and `Error_Handler` -/

/-- The HAL functions called in `main.c` that return a `HAL_StatusTypeDef`. -/
inductive HalCall where
  | HAL_Init
  | HAL_RCC_OscConfig
  | HAL_RCC_ClockConfig
  | HAL_ADC_Init
  | HAL_ADC_ConfigChannel
  | HAL_TIM_Base_Init
  | HAL_TIMEx_MasterConfigSynchronization
  | HAL_DAC_Init
  | HAL_DAC_ConfigChannel
  | HAL_OPAMP_Init
  | HAL_DAC_Start_DMA
  | HAL_ADC_Start_DMA
  | HAL_TIM_Base_Start
  | HAL_OPAMP_Start
  | HAL_OPAMP_Stop
deriving DecidableEq, Repr

/-- The LEDs of the board that `main.c` names. -/
inductive Led where
  | LED2
deriving DecidableEq, Repr

/-- Everything `main.c` does to the outside world: vendor calls and register
accesses through vendor macros. -/
inductive Event where
  | call (c : HalCall)
  | BSP_LED_Init (led : Led)
  | BSP_PB_Init
  | BSP_LED_Off (led : Led)
  | BSP_LED_On (led : Led)
  | BSP_LED_Toggle (led : Led)
  | HAL_Delay (ms : Nat)
  | HAL_RCC_GetPCLK1Freq
  | __HAL_RCC_PWR_CLK_ENABLE
  | __HAL_PWR_VOLTAGESCALING_CONFIG
  | __HAL_PWR_GET_FLAG
deriving DecidableEq, Repr

/-- The environment of the initialisation code: `status c` is the status the
call `c` returns, `vosBusy` is the number of times the flag `PWR_FLAG_VOS`
reads non-zero before it reads `RESET`. -/
structure Env where
  status : HalCall → HalStatus
  vosBusy : Nat

/-- Lines 203-239. -/
def SystemClock_Config (env : Env) (r : Run Event) : Run Event :=
  let r := r.checked (env.status .HAL_RCC_OscConfig) (.call .HAL_RCC_OscConfig)
  let r := r.emit .__HAL_RCC_PWR_CLK_ENABLE
  let r := r.emit .__HAL_PWR_VOLTAGESCALING_CONFIG
  let r := Run.emitTimes .__HAL_PWR_GET_FLAG (env.vosBusy + 1) r
  r.checked (env.status .HAL_RCC_ClockConfig) (.call .HAL_RCC_ClockConfig)

/-- Lines 246-290. -/
def ADC_Config (env : Env) (r : Run Event) : Run Event :=
  let r := r.checked (env.status .HAL_ADC_Init) (.call .HAL_ADC_Init)
  r.checked (env.status .HAL_ADC_ConfigChannel) (.call .HAL_ADC_ConfigChannel)

/-- Line 316: the value assigned to `TimHandle.Init.Period`, computed in
`uint32_t`, where `pclk1` is the value returned by `HAL_RCC_GetPCLK1Freq()`
and `timerFrequencyHz` stands for the constant `TIMER_FREQUENCY_HZ`. -/
def TIM_Config_Period (pclk1 : Nat) (timerFrequencyHz : Nat) : Nat :=
  ((pclk1 % 2 ^ 32) / ((489 * (timerFrequencyHz % 2 ^ 32)) % 2 ^ 32) + 2 ^ 32 - 1) % 2 ^ 32

/-- Line 317: `TimHandle.Init.Prescaler = (489-1)`. -/
def TIM_Config_Prescaler : Nat := 489 - 1

/-- Modelled from the spec: the rate at which a timer clocked at `pclk1` Hz
updates when its prescaler and reload registers hold `prescaler` and
`period`, namely `pclk1 / ((prescaler + 1) * (period + 1))` as an exact
rational.  This is a property of the timer peripheral, which is not among the
sources. -/
def updateFrequency (pclk1 prescaler period : Nat) : ℚ :=
  (pclk1 : ℚ) / (((prescaler : ℚ) + 1) * ((period : ℚ) + 1))

/-- Lines 297-337. -/
def TIM_Config (env : Env) (r : Run Event) : Run Event :=
  let r := r.emit .HAL_RCC_GetPCLK1Freq
  let r := r.checked (env.status .HAL_TIM_Base_Init) (.call .HAL_TIM_Base_Init)
  r.checked (env.status .HAL_TIMEx_MasterConfigSynchronization)
    (.call .HAL_TIMEx_MasterConfigSynchronization)

/-- Lines 344-366. -/
def DAC_Config (env : Env) (r : Run Event) : Run Event :=
  let r := r.checked (env.status .HAL_DAC_Init) (.call .HAL_DAC_Init)
  r.checked (env.status .HAL_DAC_ConfigChannel) (.call .HAL_DAC_ConfigChannel)

/-- Lines 373-397: the status of `HAL_OPAMP_Init` is discarded. -/
def OPAMP_Config (_env : Env) (r : Run Event) : Run Event :=
  r.emit (.call .HAL_OPAMP_Init)

/-- Lines 77-143: `main` up to the entry of its infinite loop. -/
def main_init (env : Env) : Run Event :=
  let r : Run Event := Run.start
  let r := r.emit (.call .HAL_Init)
  let r := SystemClock_Config env r
  let r := r.emit (.BSP_LED_Init .LED2)
  let r := r.emit .BSP_PB_Init
  let r := ADC_Config env r
  let r := TIM_Config env r
  let r := DAC_Config env r
  let r := OPAMP_Config env r
  let r := r.checked (env.status .HAL_DAC_Start_DMA) (.call .HAL_DAC_Start_DMA)
  let r := r.checked (env.status .HAL_ADC_Start_DMA) (.call .HAL_ADC_Start_DMA)
  let r := r.checked (env.status .HAL_TIM_Base_Start) (.call .HAL_TIM_Base_Start)
  r.emit (.call .HAL_OPAMP_Start)

/-- The calls of `main.c` whose returned status is compared with `HAL_OK`
(lines 117-140, 216, 235, 269, 284, 321, 331, 351, 361). -/
def testedCalls : List HalCall :=
  [.HAL_RCC_OscConfig, .HAL_RCC_ClockConfig, .HAL_ADC_Init, .HAL_ADC_ConfigChannel,
   .HAL_TIM_Base_Init, .HAL_TIMEx_MasterConfigSynchronization, .HAL_DAC_Init,
   .HAL_DAC_ConfigChannel, .HAL_DAC_Start_DMA, .HAL_ADC_Start_DMA, .HAL_TIM_Base_Start]

/-- The property of a run `r` that every tested call which was made and did
not return `HAL_OK` is the last event of the run, with control in the error
handler. -/
def FailStop (env : Env) (r : Run Event) : Prop :=
  ∀ c ∈ testedCalls, Event.call c ∈ r.trace → env.status c ≠ HalStatus.HAL_OK →
    r.inErrorHandler = true ∧ r.trace.getLast? = some (Event.call c)

/-- The environment in which the call `c` returns `HAL_ERROR`, every other
call returns `HAL_OK`, and the flag `PWR_FLAG_VOS` reads `RESET` at once. -/
def envFailing (c : HalCall) : Env :=
  { status := fun c' => if c' = c then HalStatus.HAL_ERROR else HalStatus.HAL_OK
    vosBusy := 0 }

/-- Lines 147-183: one iteration of the infinite loop of `main`, started with
the flags `g`: the events it performs and the flags it leaves. -/
def main_loop_iteration (g : Globals) : List Event × Globals :=
  let led : List Event :=
    if g.ubOPAMPOutputInputVoltageStatus = RESET then [.BSP_LED_Off .LED2]
    else [.BSP_LED_On .LED2]
  let opamp : List Event :=
    if g.ubUserButtonClickEventToggle = RESET then [.call .HAL_OPAMP_Start]
    else [.call .HAL_OPAMP_Stop]
  (led ++ opamp, g)

/-- Control points of `Error_Handler` (lines 537-548): the test of
`while(1)`, the two statements of the loop body, and the point after the
loop, where the function would return to its caller. -/
inductive ErrorPc where
  | loopTest
  | toggle
  | delay
  | returned
deriving DecidableEq, Repr

/-- A state of `Error_Handler`: its control point, the flags, and the events
performed since it was entered. -/
structure ErrorState where
  pc : ErrorPc
  globals : Globals
  trace : List Event
deriving DecidableEq, Repr

/-- The state in which `Error_Handler` is entered. -/
def Error_Handler_entry (g : Globals) : ErrorState :=
  { pc := .loopTest, globals := g, trace := [] }

/-- One step of `Error_Handler`; `none` when there is no step to take (the
function has returned). -/
def Error_Handler_step (s : ErrorState) : Option ErrorState :=
  match s.pc with
  | .loopTest =>
    if (1 : Nat) ≠ 0 then some { s with pc := .toggle } else some { s with pc := .returned }
  | .toggle => some { s with pc := .delay, trace := s.trace ++ [.BSP_LED_Toggle .LED2] }
  | .delay => some { s with pc := .loopTest, trace := s.trace ++ [.HAL_Delay 500] }
  | .returned => none

/-- The state after `n` steps of `Error_Handler`, if it can take that many. -/
def Error_Handler_run (g : Globals) : Nat → Option ErrorState
  | 0 => some (Error_Handler_entry g)
  | n + 1 => (Error_Handler_run g n).bind Error_Handler_step

/-- The first `n` events of the endless sequence toggle, delay, toggle, delay, ... -/
def blink (n : Nat) : List Event :=
  (List.range n).map (fun i => if i % 2 = 0 then Event.BSP_LED_Toggle .LED2 else Event.HAL_Delay 500)

end OPAMP_InternalFollower

namespace RTC

/-! ## `rtc.c` -/

/-- The RTC handles that `rtc.c` passes to the HAL: the global `hrtc`. -/
inductive Handle where
  | hrtc
deriving DecidableEq, Repr

/-- Modelled from the spec: the vendor's data-format selectors
(`RTC_FORMAT_BIN`, `RTC_FORMAT_BCD`), declared in the HAL headers, which are
not among the sources. -/
inductive Format where
  | RTC_FORMAT_BIN
  | RTC_FORMAT_BCD
deriving DecidableEq, Repr

/-- Modelled from the spec: the vendor's values of the `TimeFormat` field,
declared in the HAL headers, which are not among the sources. -/
inductive HourFormat12 where
  | RTC_HOURFORMAT12_AM
  | RTC_HOURFORMAT12_PM
deriving DecidableEq, Repr

/-- Modelled from the spec: the vendor's values of the `DayLightSaving`
field, declared in the HAL headers, which are not among the sources. -/
inductive DayLightSaving where
  | RTC_DAYLIGHTSAVING_SUB1H
  | RTC_DAYLIGHTSAVING_ADD1H
  | RTC_DAYLIGHTSAVING_NONE
deriving DecidableEq, Repr

/-- Modelled from the spec: the vendor's values of the `StoreOperation`
field, declared in the HAL headers, which are not among the sources. -/
inductive StoreOperation where
  | RTC_STOREOPERATION_RESET
  | RTC_STOREOPERATION_SET
deriving DecidableEq, Repr

/-- Modelled from the spec: the vendor record `RTC_TimeTypeDef`, declared in
the HAL headers, which are not among the sources; these are the fields that
`rtc.c` reads or writes (`Hours`, `Minutes`, `Seconds` are `uint8_t`). -/
structure RTC_TimeTypeDef where
  Hours : Nat
  Minutes : Nat
  Seconds : Nat
  TimeFormat : HourFormat12
  DayLightSaving : DayLightSaving
  StoreOperation : StoreOperation
deriving DecidableEq, Repr

/-- Modelled from the spec: the vendor record `RTC_DateTypeDef`, declared in
the HAL headers, which are not among the sources. -/
structure RTC_DateTypeDef where
  WeekDay : Nat
  Month : Nat
  Date : Nat
  Year : Nat
deriving DecidableEq, Repr

/-- Modelled from the spec: the interrupt lines that `rtc.c` names, from the
device header, which is not among the sources. -/
inductive IRQn where
  | RTC_WKUP_IRQn
deriving DecidableEq, Repr

/-- Modelled from the spec: the wake-up clock selectors that `rtc.c` names,
from the HAL headers, which are not among the sources. -/
inductive WakeUpClock where
  | RTC_WAKEUPCLOCK_RTCCLK_DIV16
deriving DecidableEq, Repr

/-- The HAL functions called in `rtc.c` that return a status, with the
arguments `rtc.c` passes.  The configuration records handed to
`HAL_RTC_Init`, `HAL_RCC_OscConfig` and `HAL_RCCEx_PeriphCLKConfig` are not
represented. -/
inductive Call where
  | HAL_RTC_SetTime (h : Handle) (sTime : RTC_TimeTypeDef) (format : Format)
  | HAL_RTC_GetTime (h : Handle) (format : Format)
  | HAL_RTC_GetDate (h : Handle) (format : Format)
  | HAL_RTC_Init (h : Handle)
  | HAL_RTCEx_DeactivateWakeUpTimer (h : Handle)
  | HAL_RTCEx_SetWakeUpTimer_IT (h : Handle) (counter : Nat) (clock : WakeUpClock)
  | HAL_RCC_OscConfig
  | HAL_RCCEx_PeriphCLKConfig
deriving DecidableEq, Repr

/-- Everything `rtc.c` does to the outside world. -/
inductive Event where
  | call (c : Call)
  | HAL_NVIC_SetPriority (irq : IRQn) (preempt : Nat) (sub : Nat)
  | HAL_NVIC_EnableIRQ (irq : IRQn)
  | __HAL_RCC_PWR_CLK_ENABLE
  | HAL_PWR_EnableBkUpAccess
  | __HAL_RCC_RTC_ENABLE
deriving DecidableEq, Repr

/-- The HAL as `rtc.c` sees it: `status c` is the status the call `c`
returns, `time` is the record `HAL_RTC_GetTime` stores through its second
argument, `date` the record `HAL_RTC_GetDate` stores. -/
structure Env where
  status : Call → HalStatus
  time : RTC_TimeTypeDef
  date : RTC_DateTypeDef

/-- Lines 58-70. -/
def RTC_SetTime (_env : Env) (hour : Nat) (min : Nat) : Run Event :=
  let stime : RTC_TimeTypeDef :=
    { Hours := hour
      Minutes := min
      Seconds := 0x00
      TimeFormat := .RTC_HOURFORMAT12_PM
      DayLightSaving := .RTC_DAYLIGHTSAVING_NONE
      StoreOperation := .RTC_STOREOPERATION_RESET }
  Run.start.emit (.call (.HAL_RTC_SetTime .hrtc stime .RTC_FORMAT_BIN))

/-- What `RTC_GetTime` leaves behind: the run, and the values stored through
its three pointer arguments. -/
structure GetTime where
  run : Run Event
  hour : Nat
  min : Nat
  sec : Nat
deriving DecidableEq, Repr

/-- Lines 77-89. -/
def RTC_GetTime (env : Env) : GetTime :=
  let r : Run Event := Run.start
  let r := r.emit (.call (.HAL_RTC_GetTime .hrtc .RTC_FORMAT_BIN))
  let stime := env.time
  let r := r.emit (.call (.HAL_RTC_GetDate .hrtc .RTC_FORMAT_BIN))
  let _sdate := env.date
  { run := r, hour := stime.Hours, min := stime.Minutes, sec := stime.Seconds }

/-- Lines 96-117. -/
def RTC_Init (_env : Env) : Run Event :=
  let r : Run Event := Run.start
  let r := r.emit (.call (.HAL_RTC_Init .hrtc))
  let r := r.emit (.HAL_NVIC_SetPriority .RTC_WKUP_IRQn 0x0 0)
  let r := r.emit (.HAL_NVIC_EnableIRQ .RTC_WKUP_IRQn)
  let r := r.emit (.call (.HAL_RTCEx_DeactivateWakeUpTimer .hrtc))
  r.emit (.call (.HAL_RTCEx_SetWakeUpTimer_IT .hrtc 0x800 .RTC_WAKEUPCLOCK_RTCCLK_DIV16))

/-- Lines 119-137. -/
def HAL_RTC_MspInit (_env : Env) : Run Event :=
  let r : Run Event := Run.start
  let r := r.emit .__HAL_RCC_PWR_CLK_ENABLE
  let r := r.emit .HAL_PWR_EnableBkUpAccess
  let r := r.emit (.call .HAL_RCC_OscConfig)
  let r := r.emit (.call .HAL_RCCEx_PeriphCLKConfig)
  r.emit .__HAL_RCC_RTC_ENABLE

/-- Modelled from the spec: the time record the RTC holds after the events
`evs`, for a HAL in which `HAL_RTC_SetTime` stores the record it is given and
nothing else changes the time (no clock tick); `held` is the record held
before.  The HAL itself is not among the sources. -/
def storedTime (held : RTC_TimeTypeDef) : List Event → RTC_TimeTypeDef
  | [] => held
  | Event.call (Call.HAL_RTC_SetTime _ sTime _) :: evs => storedTime sTime evs
  | _ :: evs => storedTime held evs

/-- Modelled from the spec: the HAL as it is after the run `r`, for a HAL in
which `HAL_RTC_GetTime` returns the record last stored by `HAL_RTC_SetTime`.
The HAL itself is not among the sources. -/
def Env.afterRun (env : Env) (r : Run Event) : Env :=
  { env with time := storedTime env.time r.trace }

/-- The HAL in which the call `c` returns `HAL_ERROR` and every other call
returns `HAL_OK`; the clock reads 00:00:00 on Monday 1 January of year 0. -/
def envFailing (c : Call) : Env :=
  { status := fun c' => if c' = c then HalStatus.HAL_ERROR else HalStatus.HAL_OK
    time :=
      { Hours := 0
        Minutes := 0
        Seconds := 0
        TimeFormat := .RTC_HOURFORMAT12_AM
        DayLightSaving := .RTC_DAYLIGHTSAVING_NONE
        StoreOperation := .RTC_STOREOPERATION_RESET }
    date := { WeekDay := 1, Month := 1, Date := 1, Year := 0 } }

end RTC

/-! # Theorems -/

namespace OPAMP_InternalFollower

/-! ## The ADC conversion-complete callback -/

theorem load16_lt (mem : Int → Nat) (i : Int) : load16 mem i < 65536 := by
  unfold load16
  omega

theorem ramp_lt (k : Nat) : ramp k < 65536 := by
  unfold ramp Waveform_Ramp_12bits_5samples
  rcases k with _ | _ | _ | _ | _ | _ | k <;> simp [List.getD]

/-- One pass of the nested test keeps the status exactly when the sample is
strictly within 140 LSB of the reference, and resets it otherwise. -/
theorem compareStep_eq (status t r : Nat) (ht : t < 65536) (hr : r < 65536) :
    compareStep status t r =
      if (r : Int) - 140 < (t : Int) ∧ (t : Int) < (r : Int) + 140 then status else RESET := by
  unfold compareStep ADC_MEASUREMENT_TOLERANCE_LSB
  split_ifs <;> first | rfl | omega

theorem foldl_keep (p : Nat → Prop) [DecidablePred p] (l : List Nat) (st : Nat) :
    l.foldl (fun status k => if p k then status else RESET) st = SET ↔
      st = SET ∧ ∀ k ∈ l, p k := by
  induction l generalizing st with
  | nil => simp
  | cons a l ih =>
    simp only [List.foldl_cons, ih, List.mem_cons, forall_eq_or_imp]
    by_cases h : p a
    · simp [h]
    · simp [h, RESET, SET]

theorem extract_getD (mem : Int → Nat) (s k : Nat) (hk : k < 5) :
    (extract mem s).getD k 0 = load16 mem ((k : Int) + (s : Int)) := by
  unfold extract WAVEFORM_RAMP_12BITS_5SAMPLES
  interval_cases k <;> rfl

theorem compare_eq_SET (mem : Int → Nat) (s : Nat) :
    compare (extract mem s) = SET ↔
      ∀ k : Nat, k < 5 →
        (ramp k : Int) - 140 < (load16 mem ((s : Int) + (k : Int)) : Int) ∧
        (load16 mem ((s : Int) + (k : Int)) : Int) < (ramp k : Int) + 140 := by
  have h : compare (extract mem s) =
      (List.range 5).foldl (fun status k =>
        if (ramp k : Int) - 140 < (load16 mem ((s : Int) + (k : Int)) : Int) ∧
          (load16 mem ((s : Int) + (k : Int)) : Int) < (ramp k : Int) + 140
        then status else RESET) SET := by
    unfold compare WAVEFORM_RAMP_12BITS_5SAMPLES
    apply List.foldl_ext
    intro st k hk
    rw [List.mem_range] at hk
    rw [extract_getD mem s k hk, compareStep_eq _ _ _ (load16_lt _ _) (ramp_lt _), add_comm]
  rw [h, foldl_keep]
  simp [List.mem_range]

theorem compareStep_SET_or_RESET (st t r : Nat) (h : st = SET ∨ st = RESET) :
    compareStep st t r = SET ∨ compareStep st t r = RESET := by
  unfold compareStep
  split_ifs <;> simp [h]

theorem foldl_compareStep_SET_or_RESET (w : List Nat) (l : List Nat) (st : Nat)
    (h : st = SET ∨ st = RESET) :
    l.foldl (fun status tmp_index => compareStep status (w.getD tmp_index 0) (ramp tmp_index)) st
        = SET ∨
    l.foldl (fun status tmp_index => compareStep status (w.getD tmp_index 0) (ramp tmp_index)) st
        = RESET := by
  induction l generalizing st with
  | nil => exact h
  | cons a l ih =>
    simp only [List.foldl_cons]
    exact ih _ (compareStep_SET_or_RESET _ _ _ h)

theorem compare_SET_or_RESET (w : List Nat) : compare w = SET ∨ compare w = RESET :=
  foldl_compareStep_SET_or_RESET w _ SET (Or.inl rfl)

/-- The callback leaves `SET` exactly when the search found a non-zero start
and the five samples from there on are strictly inside the band. -/
theorem status_SET_iff_band (mem : Int → Nat) (g : Globals) :
    (HAL_ADC_ConvCpltCallback mem g).globals.ubOPAMPOutputInputVoltageStatus = SET ↔
      ((search mem).start ≠ 0 ∧
        ∀ k : Nat, k < 5 →
          (ramp k : Int) - 140 < (load16 mem (((search mem).start : Int) + (k : Int)) : Int) ∧
          (load16 mem (((search mem).start : Int) + (k : Int)) : Int) < (ramp k : Int) + 140) := by
  unfold HAL_ADC_ConvCpltCallback
  by_cases hs : (search mem).start = 0
  · simp [hs, RESET, SET]
  · simp only [hs, if_false, ne_eq, not_false_eq_true, true_and]
    rw [← compare_eq_SET]

/-- The callback always leaves one of the two flag values. -/
theorem status_SET_or_RESET (mem : Int → Nat) (g : Globals) :
    (HAL_ADC_ConvCpltCallback mem g).globals.ubOPAMPOutputInputVoltageStatus = SET ∨
    (HAL_ADC_ConvCpltCallback mem g).globals.ubOPAMPOutputInputVoltageStatus = RESET := by
  unfold HAL_ADC_ConvCpltCallback
  by_cases hs : (search mem).start = 0
  · simp [hs]
  · simp only [hs, if_false]
    exact compare_SET_or_RESET _

/-- C1. Whatever the memory holds, after `HAL_ADC_ConvCpltCallback` the flag
`ubOPAMPOutputInputVoltageStatus` is `SET` if and only if the start index `s`
found by the search is non-zero and each of the five samples
`aADCxConvertedValues[s+k]`, `k = 0..4`, lies strictly between
`Waveform_Ramp_12bits_5samples[k] - 140` and
`Waveform_Ramp_12bits_5samples[k] + 140` (over the integers); in every other
case the flag is `RESET`. -/
theorem callback_status_iff (mem : Int → Nat) (g : Globals) :
    ((HAL_ADC_ConvCpltCallback mem g).globals.ubOPAMPOutputInputVoltageStatus = SET ↔
      ((search mem).start ≠ 0 ∧
        ∀ k : Nat, k < 5 →
          (ramp k : Int) - 140 < (load16 mem (((search mem).start : Int) + (k : Int)) : Int) ∧
          (load16 mem (((search mem).start : Int) + (k : Int)) : Int) < (ramp k : Int) + 140)) ∧
    ((HAL_ADC_ConvCpltCallback mem g).globals.ubOPAMPOutputInputVoltageStatus = RESET ↔
      ¬ ((search mem).start ≠ 0 ∧
        ∀ k : Nat, k < 5 →
          (ramp k : Int) - 140 < (load16 mem (((search mem).start : Int) + (k : Int)) : Int) ∧
          (load16 mem (((search mem).start : Int) + (k : Int)) : Int) < (ramp k : Int) + 140)) := by
  refine ⟨status_SET_iff_band mem g, ?_⟩
  rw [← status_SET_iff_band mem g]
  rcases status_SET_or_RESET mem g with h | h <;> simp [h, RESET, SET]

/-- C2 (failing input). The 32 samples are exactly the reference ramp at
phase 0 and the halfword stored just before the buffer is 4095: the search
reads that halfword at `tmp_index = 0`, takes offset 0 as the start, and the
callback leaves the flag `RESET`. -/
theorem callback_ramp_phase0_RESET :
    (∀ i : Nat, i < 32 →
      load16 (fun j : Int => if j < 0 then 4095 else ramp (j.toNat % 5)) (i : Int)
        = ramp ((i + 0) % 5)) ∧
    (search (fun j : Int => if j < 0 then 4095 else ramp (j.toNat % 5))).start = 0 ∧
    (HAL_ADC_ConvCpltCallback (fun j : Int => if j < 0 then 4095 else ramp (j.toNat % 5))
      { ubUserButtonClickEventToggle := RESET, ubOPAMPOutputInputVoltageStatus := SET }
      ).globals.ubOPAMPOutputInputVoltageStatus = RESET := by
  refine ⟨by decide, by decide, by decide⟩

/-- C3 (failing input). Whatever the memory holds, the first offset of
`aADCxConvertedValues` that the search loop reads is `-1` (iteration
`tmp_index = 0` evaluates `aADCxConvertedValues[tmp_index - 1]`), which is
not one of the offsets `0..31` of the buffer. -/
theorem search_reads_before_buffer (mem : Int → Nat) :
    (search mem).reads.head? = some (-1) ∧
    ¬ (0 ≤ (-1 : Int) ∧ (-1 : Int) < (ADCCONVERTEDVALUES_BUFFER_SIZE : Int)) := by
  constructor
  · unfold search ADCCONVERTEDVALUES_BUFFER_SIZE
    rw [searchLoop]
    split_ifs <;> simp [Search.after]
  · decide

/-- C4 (failing input). All samples are 0 except `aADCxConvertedValues[30] = 4095`:
the search returns the start index 31 and the extraction loop reads the
offsets 31..35, the last four of them past the end of the 32-sample buffer;
the writes go to `tmp_waveform[0..4]`. -/
theorem extraction_reads_past_buffer :
    (search (fun j : Int => if j = 30 then 4095 else 0)).start = 31 ∧
    (extractAccesses 31).map Prod.fst = [31, 32, 33, 34, 35] ∧
    (HAL_ADC_ConvCpltCallback (fun j : Int => if j = 30 then 4095 else 0)
      { ubUserButtonClickEventToggle := RESET, ubOPAMPOutputInputVoltageStatus := RESET }
      ).reads.getLast? = some 35 ∧
    (HAL_ADC_ConvCpltCallback (fun j : Int => if j = 30 then 4095 else 0)
      { ubUserButtonClickEventToggle := RESET, ubOPAMPOutputInputVoltageStatus := RESET }
      ).tmpWrites = [0, 1, 2, 3, 4] ∧
    ¬ ((35 : Int) ≤ (ADCCONVERTEDVALUES_BUFFER_SIZE : Int) - 1) := by
  refine ⟨by decide, by decide, by decide, by decide, by decide⟩

/-! ## Further facts about the callback -/

theorem searchLoop_after_start (pre : List Int) (s : Search) : (s.after pre).start = s.start := rfl

/-- The search returns the first counter value at which both tests hold. -/
theorem searchLoop_start_of_first (mem : Int → Nat) (left i j : Nat)
    (hij : i ≤ j) (hj : j < i + left) (hbound : i + left < 65536)
    (hbefore : ∀ t : Nat, i ≤ t → t < j →
      ¬ (load16 mem ((t : Int) - 1) > ramp 3 ∧ load16 mem (t : Int) < ramp 1))
    (hat : load16 mem ((j : Int) - 1) > ramp 3 ∧ load16 mem (j : Int) < ramp 1) :
    (searchLoop mem left i).start = j := by
  induction left generalizing i with
  | zero => omega
  | succ left ih =>
    have hmod : (i + 1) % 2 ^ 16 = i + 1 := by omega
    rw [searchLoop, hmod]
    by_cases hi : i = j
    · subst hi
      have h1 := hat.1
      have h2 := hat.2
      simp only [WAVEFORM_RAMP_12BITS_5SAMPLES] at *
      rw [if_pos h1, if_pos h2]
    · have hlt : i < j := by omega
      have hno := hbefore i (le_refl i) hlt
      have hrec : (searchLoop mem left (i + 1)).start = j :=
        ih (i + 1) (by omega) (by omega) (by omega)
          (fun t ht1 ht2 => hbefore t (by omega) ht2)
      simp only [WAVEFORM_RAMP_12BITS_5SAMPLES] at *
      split_ifs with h1 h2
      · exact absurd ⟨h1, h2⟩ hno
      · rw [searchLoop_after_start, hrec]
      · rw [searchLoop_after_start, hrec]

theorem ramp_values : ramp 0 = 0 ∧ ramp 1 = 1023 ∧ ramp 2 = 2047 ∧ ramp 3 = 3071 ∧ ramp 4 = 4095 := by
  decide

/-- On a periodic ramp whose restart in the buffer is first seen at `s`, the
search returns `s` and the five samples from `s` on are the reference. -/
theorem ramp_found_SET (mem : Int → Nat) (g : Globals) (p s : Nat)
    (hs : 1 ≤ s) (hsp : s + p = 5)
    (h : ∀ i : Nat, i < 32 → load16 mem (i : Int) = ramp ((i + p) % 5))
    (h0 : p = 0 → load16 mem (-1) ≤ 3071) :
    (HAL_ADC_ConvCpltCallback mem g).globals.ubOPAMPOutputInputVoltageStatus = SET := by
  obtain ⟨r0, r1, r2, r3, r4⟩ := ramp_values
  have hstart : (search mem).start = s := by
    apply searchLoop_start_of_first mem _ 0 s (Nat.zero_le _)
      (by unfold ADCCONVERTEDVALUES_BUFFER_SIZE; omega)
      (by unfold ADCCONVERTEDVALUES_BUFFER_SIZE; omega)
    · intro t _ hts
      rcases Nat.eq_zero_or_pos t with ht0 | htpos
      · subst ht0
        by_cases hp : p = 0
        · have := h0 hp
          simp only [Nat.cast_zero, zero_sub, r3]
          omega
        · have hv := h 0 (by omega)
          have hmod : (0 + p) % 5 = p := by omega
          rw [hmod] at hv
          simp only [Nat.cast_zero] at hv ⊢
          rw [hv, r1]
          have hp4 : p = 1 ∨ p = 2 ∨ p = 3 ∨ p = 4 := by omega
          rcases hp4 with e | e | e | e <;> subst e <;> omega
      · have hv := h t (by omega)
        have hmod : (t + p) % 5 = t + p := by omega
        rw [hmod] at hv
        rw [hv, r1]
        have hp4 : t + p = 1 ∨ t + p = 2 ∨ t + p = 3 ∨ t + p = 4 := by omega
        rcases hp4 with e | e | e | e <;> rw [e] <;> omega
    · have hv1 := h (s - 1) (by omega)
      have hv2 := h s (by omega)
      have hm1 : (s - 1 + p) % 5 = 4 := by omega
      have hm2 : (s + p) % 5 = 0 := by omega
      rw [hm1] at hv1
      rw [hm2] at hv2
      have hc : ((s - 1 : Nat) : Int) = (s : Int) - 1 := by omega
      rw [hc] at hv1
      rw [hv1, hv2]
      omega
  rw [status_SET_iff_band mem g, hstart]
  refine ⟨by omega, ?_⟩
  intro k hk
  have hv := h (s + k) (by omega)
  have hm : (s + k + p) % 5 = k := by omega
  rw [hm] at hv
  push_cast at hv
  rw [hv]
  omega

/-- Periodic ramps.  When the 32 samples are the reference ramp repeated periodically at
phase `p` in `0..4`, the callback leaves the status `SET` exactly when
`p ≠ 0` or the halfword stored just before the buffer is at most 3071: for
the phases 1..4 the status is `SET` whatever surrounds the buffer, for phase
0 it depends on the halfword at offset `-1`. -/
theorem callback_ramp_status_iff (mem : Int → Nat) (g : Globals) (p : Nat) (hp : p ≤ 4)
    (h : ∀ i : Nat, i < 32 → load16 mem (i : Int) = ramp ((i + p) % 5)) :
    (HAL_ADC_ConvCpltCallback mem g).globals.ubOPAMPOutputInputVoltageStatus = SET ↔
      (p ≠ 0 ∨ load16 mem (-1) ≤ 3071) := by
  constructor
  · intro hset
    by_contra hcon
    push_neg at hcon
    obtain ⟨hp0, hpre⟩ := hcon
    subst hp0
    obtain ⟨r0, r1, r2, r3, r4⟩ := ramp_values
    have hv := h 0 (by omega)
    simp only [Nat.cast_zero] at hv
    have hstart : (search mem).start = 0 := by
      apply searchLoop_start_of_first mem _ 0 0 (le_refl 0)
        (by unfold ADCCONVERTEDVALUES_BUFFER_SIZE; omega)
        (by unfold ADCCONVERTEDVALUES_BUFFER_SIZE; omega)
      · intro t h1 h2
        omega
      · simp only [Nat.cast_zero, zero_sub, hv, r3, r1]
        have : ramp ((0 + 0) % 5) = 0 := r0
        omega
    exact ((status_SET_iff_band mem g).1 hset).1 hstart
  · intro hcase
    exact ramp_found_SET mem g p (5 - p) (by omega) (by omega) h
      (fun hp0 => by
        rcases hcase with hne | hle
        · exact absurd hp0 hne
        · exact hle)

/-- An instance of `callback_ramp_status_iff`: phase 2, with 4095 stored before the buffer. -/
theorem callback_ramp_status_iff_witness :
    (2 : Nat) ≤ 4 ∧
    (∀ i : Nat, i < 32 →
      load16 (fun j : Int => if j < 0 then 4095 else ramp ((j.toNat + 2) % 5)) (i : Int)
        = ramp ((i + 2) % 5)) ∧
    ((HAL_ADC_ConvCpltCallback (fun j : Int => if j < 0 then 4095 else ramp ((j.toNat + 2) % 5))
      { ubUserButtonClickEventToggle := RESET, ubOPAMPOutputInputVoltageStatus := RESET }
      ).globals.ubOPAMPOutputInputVoltageStatus = SET ↔
      ((2 : Nat) ≠ 0 ∨
        load16 (fun j : Int => if j < 0 then 4095 else ramp ((j.toNat + 2) % 5)) (-1) ≤ 3071)) :=
  ⟨by decide, by decide,
    callback_ramp_status_iff (fun j : Int => if j < 0 then 4095 else ramp ((j.toNat + 2) % 5))
      { ubUserButtonClickEventToggle := RESET, ubOPAMPOutputInputVoltageStatus := RESET }
      2 (by decide) (by decide)⟩

theorem searchLoop_bounds (mem : Int → Nat) (left i : Nat) (hbound : i + left < 65536) :
    ((searchLoop mem left i).start = 0 ∨
      (i ≤ (searchLoop mem left i).start ∧ (searchLoop mem left i).start < i + left)) ∧
    ∀ x ∈ (searchLoop mem left i).reads, (i : Int) - 1 ≤ x ∧ x < (i : Int) + (left : Int) := by
  induction left generalizing i with
  | zero => simp [searchLoop]
  | succ left ih =>
    have hmod : (i + 1) % 2 ^ 16 = i + 1 := by omega
    obtain ⟨ih1, ih2⟩ := ih (i + 1) (by omega)
    rw [searchLoop, hmod]
    split_ifs
    · refine ⟨Or.inr ⟨le_refl _, by simp only; omega⟩, ?_⟩
      intro x hx
      simp only [List.mem_cons, List.mem_singleton, List.not_mem_nil, or_false] at hx
      rcases hx with hx | hx <;> subst hx <;> omega
    · refine ⟨?_, ?_⟩
      · rw [searchLoop_after_start]
        omega
      · intro x hx
        simp only [Search.after, List.mem_append, List.mem_cons, List.mem_singleton,
          List.not_mem_nil, or_false] at hx
        rcases hx with (hx | hx) | hx
        · subst hx; omega
        · subst hx; omega
        · have := ih2 x hx
          push_cast at this ⊢
          omega
    · refine ⟨?_, ?_⟩
      · rw [searchLoop_after_start]
        omega
      · intro x hx
        simp only [Search.after, List.mem_append, List.mem_cons, List.mem_singleton,
          List.not_mem_nil, or_false] at hx
        rcases hx with hx | hx
        · subst hx; omega
        · have := ih2 x hx
          push_cast at this ⊢
          omega

/-- Access bounds.  Whatever the memory holds, the start index found by the search is at
most 31, every offset of `aADCxConvertedValues` that the callback reads lies
in `-1..35`, and every index of `tmp_waveform` it writes lies in `0..4`. -/
theorem callback_access_bounds (mem : Int → Nat) (g : Globals) :
    (search mem).start ≤ 31 ∧
    (∀ x ∈ (HAL_ADC_ConvCpltCallback mem g).reads, (-1 : Int) ≤ x ∧ x ≤ 35) ∧
    (∀ k ∈ (HAL_ADC_ConvCpltCallback mem g).tmpWrites, k < WAVEFORM_RAMP_12BITS_5SAMPLES) := by
  obtain ⟨hs, hr⟩ := searchLoop_bounds mem ADCCONVERTEDVALUES_BUFFER_SIZE 0
    (by unfold ADCCONVERTEDVALUES_BUFFER_SIZE; omega)
  have hs31 : (search mem).start ≤ 31 := by
    unfold search
    unfold ADCCONVERTEDVALUES_BUFFER_SIZE at hs ⊢
    omega
  refine ⟨hs31, ?_, ?_⟩
  · intro x hx
    simp only [HAL_ADC_ConvCpltCallback] at hx
    have hsearch : ∀ y ∈ (search mem).reads, (-1 : Int) ≤ y ∧ y ≤ 35 := by
      intro y hy
      have := hr y hy
      unfold ADCCONVERTEDVALUES_BUFFER_SIZE at this
      push_cast at this
      omega
    split_ifs at hx
    · exact hsearch x hx
    · simp only [List.mem_append] at hx
      rcases hx with hx | hx
      · exact hsearch x hx
      · simp only [extractAccesses, List.map_map, List.mem_map, List.mem_range,
          Function.comp, WAVEFORM_RAMP_12BITS_5SAMPLES] at hx
        obtain ⟨k, hk, rfl⟩ := hx
        omega
  · intro k hk
    simp only [HAL_ADC_ConvCpltCallback] at hk
    split_ifs at hk
    · simp at hk
    · simp only [extractAccesses, List.map_map, List.mem_map, List.mem_range,
        Function.comp] at hk
      obtain ⟨k', hk', rfl⟩ := hk
      exact hk'

/-! ## The button callback and the main loop -/

/-- C6. `HAL_GPIO_EXTI_Callback` toggles the button flag exactly on a
user-button pin: with `GPIO_Pin = USER_BUTTON_PIN` the flag becomes `SET`
when it was `RESET` and `RESET` otherwise; with any other pin it is
unchanged; the voltage-status flag is unchanged in both cases; and from
`RESET` or `SET` two consecutive user-button callbacks restore the flags. -/
theorem exti_callback_toggles (USER_BUTTON_PIN GPIO_Pin : Nat) (g : Globals) :
    (GPIO_Pin = USER_BUTTON_PIN →
      (g.ubUserButtonClickEventToggle = RESET →
        (HAL_GPIO_EXTI_Callback USER_BUTTON_PIN GPIO_Pin g).ubUserButtonClickEventToggle = SET) ∧
      (g.ubUserButtonClickEventToggle ≠ RESET →
        (HAL_GPIO_EXTI_Callback USER_BUTTON_PIN GPIO_Pin g).ubUserButtonClickEventToggle
          = RESET)) ∧
    (GPIO_Pin ≠ USER_BUTTON_PIN →
      (HAL_GPIO_EXTI_Callback USER_BUTTON_PIN GPIO_Pin g).ubUserButtonClickEventToggle
        = g.ubUserButtonClickEventToggle) ∧
    (HAL_GPIO_EXTI_Callback USER_BUTTON_PIN GPIO_Pin g).ubOPAMPOutputInputVoltageStatus
      = g.ubOPAMPOutputInputVoltageStatus ∧
    (g.ubUserButtonClickEventToggle = RESET ∨ g.ubUserButtonClickEventToggle = SET →
      HAL_GPIO_EXTI_Callback USER_BUTTON_PIN USER_BUTTON_PIN
        (HAL_GPIO_EXTI_Callback USER_BUTTON_PIN USER_BUTTON_PIN g) = g) := by
  obtain ⟨t, v⟩ := g
  refine ⟨?_, ?_, ?_, ?_⟩
  · intro hp
    constructor <;> intro ht <;> simp_all [HAL_GPIO_EXTI_Callback]
  · intro hp
    simp [HAL_GPIO_EXTI_Callback, hp]
  · unfold HAL_GPIO_EXTI_Callback
    split_ifs <;> rfl
  · rintro (ht | ht) <;> simp_all [HAL_GPIO_EXTI_Callback, RESET, SET]

/-- C7. One iteration of the infinite loop of `main` performs exactly two
actions, chosen by the two flags only: first LED2 is turned off if
`ubOPAMPOutputInputVoltageStatus == RESET` and on otherwise, then the OPAMP is
started if `ubUserButtonClickEventToggle == RESET` and stopped otherwise; the
iteration leaves both flags as they were. -/
theorem main_loop_iteration_acts_on_flags (g : Globals) :
    (main_loop_iteration g).1 =
      [ (if g.ubOPAMPOutputInputVoltageStatus = RESET then Event.BSP_LED_Off Led.LED2
          else Event.BSP_LED_On Led.LED2),
        (if g.ubUserButtonClickEventToggle = RESET then Event.call HalCall.HAL_OPAMP_Start
          else Event.call HalCall.HAL_OPAMP_Stop) ] ∧
    (main_loop_iteration g).2 = g := by
  unfold main_loop_iteration
  constructor
  · split_ifs <;> rfl
  · rfl

/-! ## The error handler -/

theorem blink_succ (n : Nat) :
    blink (n + 1) =
      blink n ++ [if n % 2 = 0 then Event.BSP_LED_Toggle .LED2 else Event.HAL_Delay 500] := by
  unfold blink
  rw [List.range_succ, List.map_append]
  rfl

/-- The exact state of `Error_Handler` after `n` steps. -/
theorem Error_Handler_run_eq (g : Globals) (n : Nat) :
    Error_Handler_run g n = some
      { pc := if n % 3 = 0 then .loopTest else if n % 3 = 1 then .toggle else .delay
        globals := g
        trace := blink (2 * (n / 3) + n % 3 / 2) } := by
  induction n with
  | zero => rfl
  | succ n ih =>
    rw [Error_Handler_run, ih]
    have h3 : n % 3 = 0 ∨ n % 3 = 1 ∨ n % 3 = 2 := by omega
    rcases h3 with h | h | h
    · have h1 : (n + 1) % 3 = 1 := by omega
      have h2 : (n + 1) / 3 = n / 3 := by omega
      simp [Error_Handler_step, h, h1, h2]
    · have h1 : (n + 1) % 3 = 2 := by omega
      have h2 : (n + 1) / 3 = n / 3 := by omega
      have h4 : 2 * (n / 3) % 2 = 0 := by omega
      simp [Error_Handler_step, h, h1, h2, blink_succ, h4]
    · have h1 : (n + 1) % 3 = 0 := by omega
      have h2 : (n + 1) / 3 = n / 3 + 1 := by omega
      have h4 : (2 * (n / 3) + 1) % 2 = 1 := by omega
      have h5 : 2 * (n / 3 + 1) = 2 * (n / 3) + 1 + 1 := by omega
      simp [Error_Handler_step, h, h1, h2, h5, blink_succ, h4]

/-- C10. `Error_Handler` is terminal.  From its entry, for every number `n`
of steps the handler can take `n` steps; the state it reaches is never the
point after the loop (it has not returned to its caller); the flags are the
ones it was entered with; and the events performed so far are exactly the
first `2 * (n / 3) + (n % 3) / 2` events of the endless sequence
`BSP_LED_Toggle(LED2)`, `HAL_Delay(500)`, `BSP_LED_Toggle(LED2)`, ... (so
their number grows without bound and no other event occurs). -/
theorem Error_Handler_never_returns (g : Globals) (n : Nat) :
    ∃ s : ErrorState,
      Error_Handler_run g n = some s ∧
      s.pc ≠ ErrorPc.returned ∧
      s.globals = g ∧
      s.trace = blink (2 * (n / 3) + n % 3 / 2) ∧
      (∀ e ∈ s.trace, e = Event.BSP_LED_Toggle Led.LED2 ∨ e = Event.HAL_Delay 500) := by
  refine ⟨_, Error_Handler_run_eq g n, ?_, rfl, rfl, ?_⟩
  · simp only
    split_ifs <;> simp
  · intro e he
    simp only [blink, List.mem_map, List.mem_range] at he
    obtain ⟨i, _, rfl⟩ := he
    split_ifs <;> simp

/-! ## Error handling of the initialisation code -/

theorem failStop_start (env : Env) : FailStop env Run.start := by
  intro c _ hmem
  simp [Run.start] at hmem

theorem failStop_emit (env : Env) (r : Run Event) (e : Event)
    (he : ∀ c ∈ testedCalls, e ≠ Event.call c) (h : FailStop env r) :
    FailStop env (r.emit e) := by
  unfold Run.emit
  by_cases hr : r.inErrorHandler = true
  · simpa [hr] using h
  · rw [if_neg hr]
    intro c hc hmem hst
    simp only [List.mem_append, List.mem_singleton] at hmem
    rcases hmem with hmem | hmem
    · exact absurd (h c hc hmem hst).1 hr
    · exact absurd hmem.symm (he c hc)

theorem failStop_checked (env : Env) (r : Run Event) (c : HalCall) (h : FailStop env r) :
    FailStop env (r.checked (env.status c) (Event.call c)) := by
  unfold Run.checked
  by_cases hr : r.inErrorHandler = true
  · simpa [hr] using h
  · rw [if_neg hr]
    intro c' hc' hmem hst
    simp only [List.mem_append, List.mem_singleton] at hmem
    rcases hmem with hmem | hmem
    · exact absurd (h c' hc' hmem hst).1 hr
    · have hcc : c' = c := by injection hmem
      subst hcc
      exact ⟨by simpa using hst, List.getLast?_concat _⟩

theorem failStop_emitTimes (env : Env) (e : Event)
    (he : ∀ c ∈ testedCalls, e ≠ Event.call c) (n : Nat) (r : Run Event) (h : FailStop env r) :
    FailStop env (Run.emitTimes e n r) := by
  induction n generalizing r with
  | zero => exact h
  | succ n ih => exact ih _ (failStop_emit env r e he h)

theorem failStop_main_init (env : Env) : FailStop env (main_init env) := by
  unfold main_init SystemClock_Config ADC_Config TIM_Config DAC_Config OPAMP_Config
  simp only
  repeat first
    | apply failStop_checked
    | apply failStop_emitTimes _ _ (by decide)
    | apply failStop_emit _ _ _ (by decide)
    | apply failStop_start

end OPAMP_InternalFollower

namespace RTC

/-! ## The RTC wrapper -/

/-- C8. `RTC_SetTime` is a direct pass-through with fixed constant
configuration: for every `hour` and `min` in `0..255` it makes exactly one
call, `HAL_RTC_SetTime` on `hrtc` in format `RTC_FORMAT_BIN`, whose record has
`Hours = hour` and `Minutes = min` unmodified, `Seconds = 0`,
`TimeFormat = RTC_HOURFORMAT12_PM`, `DayLightSaving = RTC_DAYLIGHTSAVING_NONE`
and `StoreOperation = RTC_STOREOPERATION_RESET`. -/
theorem RTC_SetTime_passes_through (env : Env) (hour min : Nat)
    (_hhour : hour < 256) (_hmin : min < 256) :
    (RTC_SetTime env hour min).trace =
      [Event.call (Call.HAL_RTC_SetTime Handle.hrtc
        { Hours := hour
          Minutes := min
          Seconds := 0
          TimeFormat := HourFormat12.RTC_HOURFORMAT12_PM
          DayLightSaving := DayLightSaving.RTC_DAYLIGHTSAVING_NONE
          StoreOperation := StoreOperation.RTC_STOREOPERATION_RESET }
        Format.RTC_FORMAT_BIN)] := by
  rfl

/-- Witness of C8 at `hour = 23`, `min = 59`. -/
theorem RTC_SetTime_passes_through_witness :
    (23 : Nat) < 256 ∧ (59 : Nat) < 256 ∧
    (RTC_SetTime (envFailing Call.HAL_RCC_OscConfig) 23 59).trace =
      [Event.call (Call.HAL_RTC_SetTime Handle.hrtc
        { Hours := 23
          Minutes := 59
          Seconds := 0
          TimeFormat := HourFormat12.RTC_HOURFORMAT12_PM
          DayLightSaving := DayLightSaving.RTC_DAYLIGHTSAVING_NONE
          StoreOperation := StoreOperation.RTC_STOREOPERATION_RESET }
        Format.RTC_FORMAT_BIN)] :=
  ⟨by decide, by decide,
    RTC_SetTime_passes_through (envFailing Call.HAL_RCC_OscConfig) 23 59 (by decide) (by decide)⟩

/-- C9. `RTC_GetTime` is a direct pass-through: whatever record
`HAL_RTC_GetTime` returns for `hrtc` in format `RTC_FORMAT_BIN`, its `Hours`,
`Minutes` and `Seconds` are what is stored through `hour`, `min` and `sec`;
the date is read with `HAL_RTC_GetDate` after the time, and there is no other
call; and the date that is read has no influence on the three outputs. -/
theorem RTC_GetTime_passes_through (env : Env) :
    (RTC_GetTime env).hour = env.time.Hours ∧
    (RTC_GetTime env).min = env.time.Minutes ∧
    (RTC_GetTime env).sec = env.time.Seconds ∧
    (RTC_GetTime env).run.trace =
      [Event.call (Call.HAL_RTC_GetTime Handle.hrtc Format.RTC_FORMAT_BIN),
       Event.call (Call.HAL_RTC_GetDate Handle.hrtc Format.RTC_FORMAT_BIN)] ∧
    (∀ d : RTC_DateTypeDef,
      (RTC_GetTime { env with date := d }).hour = (RTC_GetTime env).hour ∧
      (RTC_GetTime { env with date := d }).min = (RTC_GetTime env).min ∧
      (RTC_GetTime { env with date := d }).sec = (RTC_GetTime env).sec) := by
  refine ⟨rfl, rfl, rfl, rfl, fun d => ⟨rfl, rfl, rfl⟩⟩

/-! ## Error handling across both files -/

/-- C5 (counterexample). In `rtc.c`, when `HAL_RCC_OscConfig` returns
`HAL_ERROR`, `HAL_RTC_MspInit` still goes on to call
`HAL_RCCEx_PeriphCLKConfig` and to enable the RTC clock, and no error handler
is entered.  In `main.c`, when `HAL_OPAMP_Init` returns `HAL_ERROR`, `main`
still runs to the entry of its infinite loop. -/
theorem unchecked_status_goes_unnoticed :
    ((envFailing Call.HAL_RCC_OscConfig).status Call.HAL_RCC_OscConfig ≠ HalStatus.HAL_OK ∧
      (HAL_RTC_MspInit (envFailing Call.HAL_RCC_OscConfig)).trace =
        [Event.__HAL_RCC_PWR_CLK_ENABLE, Event.HAL_PWR_EnableBkUpAccess,
         Event.call Call.HAL_RCC_OscConfig, Event.call Call.HAL_RCCEx_PeriphCLKConfig,
         Event.__HAL_RCC_RTC_ENABLE] ∧
      (HAL_RTC_MspInit (envFailing Call.HAL_RCC_OscConfig)).inErrorHandler = false) ∧
    ((OPAMP_InternalFollower.envFailing
        OPAMP_InternalFollower.HalCall.HAL_OPAMP_Init).status
        OPAMP_InternalFollower.HalCall.HAL_OPAMP_Init ≠ HalStatus.HAL_OK ∧
      OPAMP_InternalFollower.Event.call OPAMP_InternalFollower.HalCall.HAL_OPAMP_Init ∈
        (OPAMP_InternalFollower.main_init (OPAMP_InternalFollower.envFailing
          OPAMP_InternalFollower.HalCall.HAL_OPAMP_Init)).trace ∧
      (OPAMP_InternalFollower.main_init (OPAMP_InternalFollower.envFailing
          OPAMP_InternalFollower.HalCall.HAL_OPAMP_Init)).trace.getLast? =
        some (OPAMP_InternalFollower.Event.call OPAMP_InternalFollower.HalCall.HAL_OPAMP_Start) ∧
      (OPAMP_InternalFollower.main_init (OPAMP_InternalFollower.envFailing
          OPAMP_InternalFollower.HalCall.HAL_OPAMP_Init)).inErrorHandler = false) := by
  refine ⟨⟨by decide, by decide, by decide⟩, ⟨by decide, by decide, by decide, by decide⟩⟩

/-- C5 (amended). Errors are handled uniformly where the status is tested:
if `main` (with `SystemClock_Config`, `ADC_Config`, `TIM_Config`,
`DAC_Config`) makes one of the calls whose status it compares with `HAL_OK`
and that call returns another status, then the terminal error handler is
entered and that call is the last thing the initialisation does.  The RTC
module has no error handler: whatever statuses the HAL returns, `RTC_Init`,
`RTC_SetTime`, `RTC_GetTime` and `HAL_RTC_MspInit` make all of their calls
and return normally. -/
theorem tested_status_enters_error_handler
    (env : OPAMP_InternalFollower.Env) (c : OPAMP_InternalFollower.HalCall)
    (hc : c ∈ OPAMP_InternalFollower.testedCalls)
    (hmade : OPAMP_InternalFollower.Event.call c ∈ (OPAMP_InternalFollower.main_init env).trace)
    (hfail : env.status c ≠ HalStatus.HAL_OK)
    (renv : Env) (hour min : Nat) :
    ((OPAMP_InternalFollower.main_init env).inErrorHandler = true ∧
      (OPAMP_InternalFollower.main_init env).trace.getLast? =
        some (OPAMP_InternalFollower.Event.call c)) ∧
    ((RTC_Init renv).inErrorHandler = false ∧
      (RTC_Init renv).trace =
        [Event.call (Call.HAL_RTC_Init Handle.hrtc),
         Event.HAL_NVIC_SetPriority IRQn.RTC_WKUP_IRQn 0 0,
         Event.HAL_NVIC_EnableIRQ IRQn.RTC_WKUP_IRQn,
         Event.call (Call.HAL_RTCEx_DeactivateWakeUpTimer Handle.hrtc),
         Event.call (Call.HAL_RTCEx_SetWakeUpTimer_IT Handle.hrtc 0x800
           WakeUpClock.RTC_WAKEUPCLOCK_RTCCLK_DIV16)]) ∧
    ((RTC_SetTime renv hour min).inErrorHandler = false ∧
      (RTC_SetTime renv hour min).trace.length = 1) ∧
    ((RTC_GetTime renv).run.inErrorHandler = false ∧
      (RTC_GetTime renv).run.trace.length = 2) ∧
    ((HAL_RTC_MspInit renv).inErrorHandler = false ∧
      (HAL_RTC_MspInit renv).trace =
        [Event.__HAL_RCC_PWR_CLK_ENABLE, Event.HAL_PWR_EnableBkUpAccess,
         Event.call Call.HAL_RCC_OscConfig, Event.call Call.HAL_RCCEx_PeriphCLKConfig,
         Event.__HAL_RCC_RTC_ENABLE]) :=
  ⟨OPAMP_InternalFollower.failStop_main_init env c hc hmade hfail,
    ⟨rfl, rfl⟩, ⟨rfl, rfl⟩, ⟨rfl, rfl⟩, ⟨rfl, rfl⟩⟩

/-- Witness of C5 (amended): `HAL_ADC_Init` returns `HAL_ERROR`. -/
theorem tested_status_enters_error_handler_witness :
    OPAMP_InternalFollower.HalCall.HAL_ADC_Init ∈ OPAMP_InternalFollower.testedCalls ∧
    OPAMP_InternalFollower.Event.call OPAMP_InternalFollower.HalCall.HAL_ADC_Init ∈
      (OPAMP_InternalFollower.main_init
        (OPAMP_InternalFollower.envFailing OPAMP_InternalFollower.HalCall.HAL_ADC_Init)).trace ∧
    (OPAMP_InternalFollower.envFailing OPAMP_InternalFollower.HalCall.HAL_ADC_Init).status
      OPAMP_InternalFollower.HalCall.HAL_ADC_Init ≠ HalStatus.HAL_OK ∧
    (OPAMP_InternalFollower.main_init
      (OPAMP_InternalFollower.envFailing
        OPAMP_InternalFollower.HalCall.HAL_ADC_Init)).inErrorHandler = true ∧
    (OPAMP_InternalFollower.main_init
      (OPAMP_InternalFollower.envFailing
        OPAMP_InternalFollower.HalCall.HAL_ADC_Init)).trace.getLast? =
      some (OPAMP_InternalFollower.Event.call OPAMP_InternalFollower.HalCall.HAL_ADC_Init) :=
  ⟨by decide, by decide, by decide,
    (tested_status_enters_error_handler
      (OPAMP_InternalFollower.envFailing OPAMP_InternalFollower.HalCall.HAL_ADC_Init)
      OPAMP_InternalFollower.HalCall.HAL_ADC_Init (by decide) (by decide) (by decide)
      (envFailing Call.HAL_RCC_OscConfig) 23 59).1⟩

end RTC

namespace OPAMP_InternalFollower

/-! ## The start search returns the first restart -/

/-- When the two tests hold together at no counter value that is left to
visit, the search leaves the start index at its initial value 0. -/
theorem searchLoop_start_of_none (mem : Int → Nat) (left i : Nat)
    (hbound : i + left < 65536)
    (hnone : ∀ t : Nat, i ≤ t → t < i + left →
      ¬ (load16 mem ((t : Int) - 1) > ramp 3 ∧ load16 mem (t : Int) < ramp 1)) :
    (searchLoop mem left i).start = 0 := by
  induction left generalizing i with
  | zero => rfl
  | succ left ih =>
    have hmod : (i + 1) % 2 ^ 16 = i + 1 := by omega
    have hno := hnone i (le_refl i) (by omega)
    have hrec : (searchLoop mem left (i + 1)).start = 0 :=
      ih (i + 1) (by omega) (fun t ht1 ht2 => hnone t (by omega) (by omega))
    rw [searchLoop, hmod]
    simp only [WAVEFORM_RAMP_12BITS_5SAMPLES] at *
    split_ifs with h1 h2
    · exact absurd ⟨h1, h2⟩ hno
    · rw [searchLoop_after_start, hrec]
    · rw [searchLoop_after_start, hrec]

/-- C11. Whatever the memory holds, the start index found by the search of
`HAL_ADC_ConvCpltCallback` is the smallest `i` in `0..31` with
`aADCxConvertedValues[i-1] > 3071` and `aADCxConvertedValues[i] < 1023`
(matches after the first are ignored), and it is 0 when there is no such `i`.
A match at index 0 therefore gives the same start index 0 as no match, and
with start index 0 the callback takes the branch for no start: the status is
`RESET` and nothing is extracted. -/
theorem search_start_is_first_restart (mem : Int → Nat) :
    (∀ i : Nat, i < 32 →
      (load16 mem ((i : Int) - 1) > 3071 ∧ load16 mem (i : Int) < 1023) →
      (∀ j : Nat, j < i →
        ¬ (load16 mem ((j : Int) - 1) > 3071 ∧ load16 mem (j : Int) < 1023)) →
      (search mem).start = i) ∧
    ((∀ i : Nat, i < 32 →
        ¬ (load16 mem ((i : Int) - 1) > 3071 ∧ load16 mem (i : Int) < 1023)) →
      (search mem).start = 0) ∧
    ((load16 mem (-1) > 3071 ∧ load16 mem 0 < 1023) → (search mem).start = 0) ∧
    (∀ g : Globals, (search mem).start = 0 →
      (HAL_ADC_ConvCpltCallback mem g).globals.ubOPAMPOutputInputVoltageStatus = RESET ∧
      (HAL_ADC_ConvCpltCallback mem g).tmpWrites = []) := by
  obtain ⟨_, r1, _, r3, _⟩ := ramp_values
  have hfirst : ∀ i : Nat, i < 32 →
      (load16 mem ((i : Int) - 1) > 3071 ∧ load16 mem (i : Int) < 1023) →
      (∀ j : Nat, j < i →
        ¬ (load16 mem ((j : Int) - 1) > 3071 ∧ load16 mem (j : Int) < 1023)) →
      (search mem).start = i := by
    intro i hi hat hbefore
    apply searchLoop_start_of_first mem _ 0 i (Nat.zero_le _)
      (by unfold ADCCONVERTEDVALUES_BUFFER_SIZE; omega)
      (by unfold ADCCONVERTEDVALUES_BUFFER_SIZE; omega)
    · intro t _ hti
      rw [r1, r3]
      exact hbefore t hti
    · rw [r1, r3]
      exact hat
  refine ⟨hfirst, ?_, ?_, ?_⟩
  · intro hnone
    apply searchLoop_start_of_none mem _ 0
      (by unfold ADCCONVERTEDVALUES_BUFFER_SIZE; omega)
    intro t _ ht
    rw [r1, r3]
    exact hnone t (by unfold ADCCONVERTEDVALUES_BUFFER_SIZE at ht; omega)
  · intro h0
    apply hfirst 0 (by omega)
    · simpa using h0
    · intro j hj
      omega
  · intro g hs
    simp [HAL_ADC_ConvCpltCallback, hs]

/-- An instance of C11: with restarts at indices 3 and 8 the search returns 3. -/
theorem search_start_is_first_restart_witness :
    (search (fun j : Int => if j = 2 ∨ j = 7 then 4095 else 0)).start = 3 :=
  (search_start_is_first_restart (fun j : Int => if j = 2 ∨ j = 7 then 4095 else 0)).1
    3 (by decide) (by decide) (by decide)

/-! ## The tolerance test -/

/-- C12. For every 16-bit sample `t` and 16-bit reference `r`, the nested
test of the comparison loop, evaluated in 32-bit unsigned arithmetic, accepts
(leaves the status as it is) exactly when `|t - r| < 140` over the integers
and rejects (resets the status) otherwise.  The sum `t + 140` does not
overflow 32 bits; where `t ≥ 140` the 32-bit difference is the true `t - 140`;
and where `t < 140` the outcome is that of the first test alone, so the
difference plays no part. -/
theorem tolerance_test_is_band (t r : Nat) (ht : t < 2 ^ 16) (hr : r < 2 ^ 16) :
    (∀ status : Nat,
      compareStep status t r = if |(t : Int) - (r : Int)| < 140 then status else RESET) ∧
    (compareStep SET t r = SET ↔ |(t : Int) - (r : Int)| < 140) ∧
    (compareStep SET t r = RESET ↔ ¬ |(t : Int) - (r : Int)| < 140) ∧
    (t + ADC_MEASUREMENT_TOLERANCE_LSB) % 2 ^ 32 = t + 140 ∧
    (t ≥ ADC_MEASUREMENT_TOLERANCE_LSB →
      (t + 2 ^ 32 - ADC_MEASUREMENT_TOLERANCE_LSB) % 2 ^ 32 = t - 140) ∧
    (t < ADC_MEASUREMENT_TOLERANCE_LSB → ∀ status : Nat,
      compareStep status t r = if t + 140 > r then status else RESET) := by
  have habs : |(t : Int) - (r : Int)| < 140 ↔
      ((r : Int) - 140 < (t : Int) ∧ (t : Int) < (r : Int) + 140) := by
    rw [abs_lt]
    constructor <;> intro h <;> constructor <;> omega
  have hstep : ∀ status : Nat,
      compareStep status t r = if |(t : Int) - (r : Int)| < 140 then status else RESET := by
    intro status
    rw [compareStep_eq status t r (by omega) (by omega)]
    by_cases hb : |(t : Int) - (r : Int)| < 140
    · rw [if_pos hb, if_pos (habs.1 hb)]
    · rw [if_neg hb, if_neg (fun h => hb (habs.2 h))]
  refine ⟨hstep, ?_, ?_, ?_, ?_, ?_⟩
  · rw [hstep SET]
    by_cases hb : |(t : Int) - (r : Int)| < 140 <;> simp [hb, RESET, SET]
  · rw [hstep SET]
    by_cases hb : |(t : Int) - (r : Int)| < 140 <;> simp [hb, RESET, SET]
  · unfold ADC_MEASUREMENT_TOLERANCE_LSB
    omega
  · unfold ADC_MEASUREMENT_TOLERANCE_LSB
    intro h
    omega
  · unfold ADC_MEASUREMENT_TOLERANCE_LSB
    intro h status
    unfold compareStep ADC_MEASUREMENT_TOLERANCE_LSB
    split_ifs <;> first | rfl | omega

/-- Witness of C12 at the sample 1100 against the reference 1023. -/
theorem tolerance_test_is_band_witness :
    (1100 : Nat) < 2 ^ 16 ∧ (1023 : Nat) < 2 ^ 16 ∧
    (compareStep SET 1100 1023 = SET ↔ |((1100 : Nat) : Int) - ((1023 : Nat) : Int)| < 140) ∧
    compareStep SET 1100 1023 = SET :=
  ⟨by decide, by decide,
    (tolerance_test_is_band 1100 1023 (by decide) (by decide)).2.1, by decide⟩

/-! ## The timer configuration -/

theorem TIM_Config_Period_at_1000 : TIM_Config_Period 32000000 TIMER_FREQUENCY_HZ = 64 := by
  decide

/-- C13 (counterexample). With `PCLK1 = 32000000` and `TIMER_FREQUENCY_HZ = 1000`
the prescaler and reload value set by `TIM_Config` do not give an update
frequency of `TIMER_FREQUENCY_HZ`. -/
theorem update_frequency_not_exact :
    updateFrequency 32000000 TIM_Config_Prescaler (TIM_Config_Period 32000000 TIMER_FREQUENCY_HZ)
      ≠ (TIMER_FREQUENCY_HZ : ℚ) := by
  rw [TIM_Config_Period_at_1000]
  unfold updateFrequency TIM_Config_Prescaler TIMER_FREQUENCY_HZ
  norm_num

/-- C13 (amended). With `PCLK1 = 32000000` and `TIMER_FREQUENCY_HZ = 1000`,
`TIM_Config` sets the prescaler to 488 and the reload value to 64 (the
quotient `32000000 / 489000` is truncated to 65), and the update frequency
`PCLK1 / ((Prescaler + 1) * (Period + 1))` is `6400000 / 6357` Hz: above
1000 Hz and below 1007 Hz. -/
theorem update_frequency_near_1000 :
    TIM_Config_Prescaler = 488 ∧
    TIM_Config_Period 32000000 TIMER_FREQUENCY_HZ = 64 ∧
    updateFrequency 32000000 TIM_Config_Prescaler (TIM_Config_Period 32000000 TIMER_FREQUENCY_HZ)
      = 6400000 / 6357 ∧
    (TIMER_FREQUENCY_HZ : ℚ) <
      updateFrequency 32000000 TIM_Config_Prescaler
        (TIM_Config_Period 32000000 TIMER_FREQUENCY_HZ) ∧
    updateFrequency 32000000 TIM_Config_Prescaler (TIM_Config_Period 32000000 TIMER_FREQUENCY_HZ)
      < 1007 := by
  rw [TIM_Config_Period_at_1000]
  unfold updateFrequency TIM_Config_Prescaler TIMER_FREQUENCY_HZ
  refine ⟨by decide, rfl, ?_, ?_, ?_⟩ <;> norm_num

/-- C14. With `PCLK1 = 32000000`, for every timer frequency from 1 Hz to
32719 Hz the computation of the reload value in `TIM_Config` stays inside 32
bits: the product `489 * f` does not overflow, the quotient is at least 1 so
that subtracting 1 does not wrap, and the reload value
`32000000 / (489 * f) - 1` lies in `1..0xFFFF`. -/
theorem reload_value_in_timer_range (f : Nat) (hlo : 1 ≤ f) (hhi : f ≤ 32719) :
    489 * f < 2 ^ 32 ∧
    1 ≤ 32000000 / (489 * f) ∧
    TIM_Config_Period 32000000 f = 32000000 / (489 * f) - 1 ∧
    1 ≤ TIM_Config_Period 32000000 f ∧
    TIM_Config_Period 32000000 f ≤ 0xFFFF := by
  have hpos : 0 < 489 * f := by omega
  have hq2 : 2 ≤ 32000000 / (489 * f) := by
    rw [Nat.le_div_iff_mul_le hpos]
    omega
  have hq : 32000000 / (489 * f) ≤ 65439 := by
    calc 32000000 / (489 * f) ≤ 32000000 / 489 :=
          Nat.div_le_div_left (by omega) (by omega)
      _ = 65439 := by norm_num
  have hperiod : TIM_Config_Period 32000000 f = 32000000 / (489 * f) - 1 := by
    unfold TIM_Config_Period
    have h1 : 32000000 % 2 ^ 32 = 32000000 := by norm_num
    have h2 : f % 2 ^ 32 = f := Nat.mod_eq_of_lt (by omega)
    have h3 : (489 * f) % 2 ^ 32 = 489 * f := Nat.mod_eq_of_lt (by omega)
    rw [h1, h2, h3]
    omega
  refine ⟨by omega, by omega, hperiod, ?_, ?_⟩
  · rw [hperiod]
    omega
  · rw [hperiod]
    omega

/-- Witness of C14 at the highest documented frequency, 32719 Hz. -/
theorem reload_value_in_timer_range_witness :
    (1 : Nat) ≤ 32719 ∧ (32719 : Nat) ≤ 32719 ∧
    TIM_Config_Period 32000000 32719 = 1 ∧
    1 ≤ TIM_Config_Period 32000000 32719 ∧
    TIM_Config_Period 32000000 32719 ≤ 0xFFFF :=
  ⟨by decide, by decide, by decide,
    (reload_value_in_timer_range 32719 (by decide) (by decide)).2.2.2.1,
    (reload_value_in_timer_range 32719 (by decide) (by decide)).2.2.2.2⟩

end OPAMP_InternalFollower

namespace RTC

/-! ## Setting and reading back the time -/

/-- C15. Under a HAL in which `HAL_RTC_GetTime` returns the record last
stored by `HAL_RTC_SetTime` (no clock tick in between), for every `hour` and
`min` in `0..255`, `RTC_SetTime(hour, min)` followed by `RTC_GetTime` stores
`hour` through `hour`, `min` through `min` and `0` through `sec`. -/
theorem RTC_SetTime_GetTime_round_trip (env : Env) (hour min : Nat)
    (_hhour : hour < 256) (_hmin : min < 256) :
    (RTC_GetTime (env.afterRun (RTC_SetTime env hour min))).hour = hour ∧
    (RTC_GetTime (env.afterRun (RTC_SetTime env hour min))).min = min ∧
    (RTC_GetTime (env.afterRun (RTC_SetTime env hour min))).sec = 0 := by
  refine ⟨rfl, rfl, rfl⟩

/-- Witness of C15 at `hour = 255`, `min = 61`, values outside a clock face
that the wrapper passes on all the same. -/
theorem RTC_SetTime_GetTime_round_trip_witness :
    (255 : Nat) < 256 ∧ (61 : Nat) < 256 ∧
    (RTC_GetTime ((envFailing Call.HAL_RCCEx_PeriphCLKConfig).afterRun
      (RTC_SetTime (envFailing Call.HAL_RCCEx_PeriphCLKConfig) 255 61))).hour = 255 ∧
    (RTC_GetTime ((envFailing Call.HAL_RCCEx_PeriphCLKConfig).afterRun
      (RTC_SetTime (envFailing Call.HAL_RCCEx_PeriphCLKConfig) 255 61))).min = 61 ∧
    (RTC_GetTime ((envFailing Call.HAL_RCCEx_PeriphCLKConfig).afterRun
      (RTC_SetTime (envFailing Call.HAL_RCCEx_PeriphCLKConfig) 255 61))).sec = 0 :=
  ⟨by decide, by decide,
    RTC_SetTime_GetTime_round_trip (envFailing Call.HAL_RCCEx_PeriphCLKConfig) 255 61 (by decide) (by decide)⟩

end RTC
